import Mathlib

/-!
Verification of the langchain-pubmed retrieval pipeline.

Shallow embedding of the three components of the package:
the retry-aware HTTP transport (src/http-client.ts), the XML metadata
normalizer (src/pubmed-parser.ts), and the search-then-fetch orchestrator
(the PubMedAPIWrapper class).  JavaScript strings are modeled as Lean
strings, JS `undefined` as `Option.none`, thrown JS errors as `Except`
errors, and the network as an explicit oracle (a scripted list of HTTP
outcomes for the transport, and response oracles for the orchestrator).
-/

namespace LangchainPubmed

/-- Models JS `s.substring(0, n)` for a natural `n`: the first `n` characters. -/
def jsSubstring (s : String) (n : Nat) : String := String.mk (s.data.take n)

/-- Models JS `s.padStart(2, "0")`: left-pad with the character 0 up to length 2. -/
def padStart2 (s : String) : String :=
  if 2 ≤ s.length then s else String.mk (List.replicate (2 - s.length) '0' ++ s.data)

/-- Models JS truthiness of an optional string field (`undefined` and `""` are falsy). -/
def truthyString : Option String → Bool
  | none => false
  | some s => decide (s ≠ "")

/-! ## Data model of parsed PubMed XML (src/types.ts)

The field types below follow the declared TypeScript interfaces; optional
fields (`?:`) become `Option`.  The `AbstractText` union
`AbstractText | string | Record<string, unknown>` becomes the tagged type
`AbstractTextValue`; a labeled section is a record that may carry the
`"@Label"` and `"#text"` keys, and a generic record carries named values
that are either strings or something else (only string-typed values are
ever used by the code). -/

/-- One labeled abstract section: the optional `"@Label"` and `"#text"` keys
of the `AbstractText` interface. -/
structure AbstractSection where
  label : Option String := none
  text : Option String := none
deriving DecidableEq, Repr

/-- A value of one named field of a free-form abstract record: either a
string or some non-string value (number, boolean, nested record). -/
inductive ObjEntryValue where
  | str (s : String)
  | nonString
deriving DecidableEq, Repr

/-- The `Abstract.AbstractText` union: plain string, sequence of labeled
sections, or free-form record of named sub-fields. -/
inductive AbstractTextValue where
  | str (s : String)
  | arr (sections : List AbstractSection)
  | obj (fields : List (String × ObjEntryValue))
deriving DecidableEq, Repr

/-- The `Abstract` field of `PubMedArticleData`. -/
structure AbstractData where
  AbstractText : Option AbstractTextValue := none
  CopyrightInformation : Option String := none
deriving DecidableEq, Repr

/-- The `ArticleDate` field of `PubMedArticleData` (all components optional). -/
structure ArticleDateData where
  Year : Option String := none
  Month : Option String := none
  Day : Option String := none
deriving DecidableEq, Repr

/-- Source `PubMedArticleData` from src/types.ts: title, date and abstract are all
optional.  `ArticleTitle` is declared `string` in the source types; the
defensive `JSON.stringify` branch for non-string runtime titles is outside
the declared data model and is not exercised here. -/
structure PubMedArticleData where
  ArticleTitle : Option String := none
  ArticleDate : Option ArticleDateData := none
  Abstract : Option AbstractData := none
deriving DecidableEq, Repr

/-- Source `MedlineCitation` of a `PubmedArticle` (its `Article` field is mandatory
in the declared types). -/
structure MedlineCitationData where
  Article : PubMedArticleData
deriving DecidableEq, Repr

/-- Source `PubmedArticle`: an optional `MedlineCitation`. -/
structure PubmedArticleData where
  MedlineCitation : Option MedlineCitationData := none
deriving DecidableEq, Repr

/-- Source `PubmedBookArticle`: its `BookDocument` field is mandatory. -/
structure PubmedBookArticleData where
  BookDocument : PubMedArticleData
deriving DecidableEq, Repr

/-- The `PubmedArticleSet` element: one of the two document families. -/
structure PubmedArticleSetData where
  PubmedArticle : Option PubmedArticleData := none
  PubmedBookArticle : Option PubmedBookArticleData := none
deriving DecidableEq, Repr

/-- Source `PubMedXMLResponse`: the root of a parsed fetch document.  The root
element is optional here because the source guards the whole traversal with
try/catch (accessing a member of `undefined` throws in JS). -/
structure PubMedXMLResponse where
  PubmedArticleSet : Option PubmedArticleSetData := none
deriving DecidableEq, Repr

/-- The output record `PubMedArticleMetadata` (the source spells the fourth
field `"Copyright Information"`). -/
structure PubMedArticleMetadata where
  uid : String
  Title : String
  Published : String
  CopyrightInformation : String
  Summary : String
deriving DecidableEq, Repr

/-! ## Metadata normalizer (src/pubmed-parser.ts) -/

/-- Source `PubMedParser.extractArticleData`: try the standard article citation
path `PubmedArticleSet.PubmedArticle?.MedlineCitation?.Article`, then the
book path `PubmedArticleSet.PubmedBookArticle?.BookDocument`, else the
empty record; a throw from a missing root is caught and yields the empty
record too. -/
def extractArticleData (xmlResponse : PubMedXMLResponse) : PubMedArticleData :=
  match xmlResponse.PubmedArticleSet with
  | none => {}
  | some articleSet =>
    match articleSet.PubmedArticle.bind (fun a => a.MedlineCitation) with
    | some citation => citation.Article
    | none =>
      match articleSet.PubmedBookArticle with
      | some book => book.BookDocument
      | none => {}

/-- The loop body of `PubMedParser.formatAbstractArray`: keep, in order,
every entry that carries both the `"@Label"` and the `"#text"` key,
rendered as `LABEL: text`. -/
def collectSummaries : List AbstractSection → List String
  | [] => []
  | entry :: rest =>
    match entry.label, entry.text with
    | some l, some t => (l ++ ": " ++ t) :: collectSummaries rest
    | _, _ => collectSummaries rest

/-- Source `PubMedParser.formatAbstractArray`: newline-join the rendered qualifying
sections, or the sentinel when none qualifies. -/
def formatAbstractArray (abstractArray : List AbstractSection) : String :=
  let summaries := collectSummaries abstractArray
  if summaries.length > 0 then String.intercalate "\n" summaries
  else "No abstract available"

/-- Source `PubMedParser.formatAbstractObject`: join the string-typed values of the
record in key order, or the sentinel when there is none. -/
def formatAbstractObject (abstractObj : List (String × ObjEntryValue)) : String :=
  let values := abstractObj.filterMap fun p =>
    match p.2 with
    | .str s => some s
    | .nonString => none
  if values.length > 0 then String.intercalate "\n" values
  else "No abstract available"

/-- Source `PubMedParser.extractAbstract`.  The source guard `if (!abstractText)`
is a JS falsy test: among the modeled shapes it is true exactly for a
missing value and for the empty string (an array or record, even empty, is
truthy), so the empty-string abstract takes the sentinel branch. -/
def extractAbstract (articleData : PubMedArticleData) : String :=
  match articleData.Abstract.bind (fun a => a.AbstractText) with
  | none => "No abstract available"
  | some value =>
    match value with
    | .str s => if s = "" then "No abstract available" else s
    | .arr sections => formatAbstractArray sections
    | .obj fields => formatAbstractObject fields

/-- Source `PubMedParser.extractPublicationDate`: push the truthy components
(year as-is, month and day zero-padded via `padStart(2, "0")`) and join
with `-`. -/
def extractPublicationDate (articleData : PubMedArticleData) : String :=
  let articleDate := articleData.ArticleDate.getD {}
  let parts : List String :=
    (if truthyString articleDate.Year then [articleDate.Year.getD ""] else []) ++
    (if truthyString articleDate.Month then [padStart2 (articleDate.Month.getD "")] else []) ++
    (if truthyString articleDate.Day then [padStart2 (articleDate.Day.getD "")] else [])
  String.intercalate "-" parts

/-- Source `PubMedParser.extractArticleMetadata`: assemble the output record.
A missing title degrades to `""` (`JSON.stringify(undefined) ?? ""`). -/
def extractArticleMetadata (uid : String) (xmlResponse : PubMedXMLResponse) :
    PubMedArticleMetadata :=
  let articleData := extractArticleData xmlResponse
  { uid := uid
    Title := articleData.ArticleTitle.getD ""
    Published := extractPublicationDate articleData
    CopyrightInformation :=
      (articleData.Abstract.bind (fun a => a.CopyrightInformation)).getD ""
    Summary := extractAbstract articleData }

/-! ## Retry-aware transport (src/http-client.ts)

The network is an oracle: a scripted list of outcomes, one consumed per
actual network call.  `fetchLoop` is the `while (retry <= this.maxRetry)`
loop of `RetryableHttpClient.fetch` with its two mutable locals (`retry`,
`currentSleepTime`) as parameters; the returned record carries the
result, the number of network calls made, and the ordered list of nominal
sleep durations passed to `sleep` (jitter and the 100ms floor apply to the
real-time duration only, never to the nominal value). -/

/-- One scripted network outcome: an HTTP response with a status code, or a
transport-level fault (the JS `fetch` call itself throwing). -/
inductive NetOutcome where
  | resp (status : Nat)
  | fault
deriving DecidableEq, Repr

/-- The error outcomes of `RetryableHttpClient.fetch`.  `noMoreOutcomes` is
an artifact of the embedding (the scripted oracle ran out); no theorem
below ever reaches it. -/
inductive FetchError where
  | rateLimitExceeded (maxRetry : Nat)
  | httpError (status : Nat)
  | networkFault
  | noMoreOutcomes
deriving DecidableEq, Repr

/-- Observable result of one `fetch` call: outcome, network calls made and
nominal backoff sleeps, in order. -/
structure FetchResult where
  result : Except FetchError Nat
  calls : Nat
  sleeps : List Nat
deriving Repr

/-- JS `response.ok`: status in the range 200-299. -/
def is2xx (status : Nat) : Bool := 200 ≤ status && status < 300

/-- The retry loop of `RetryableHttpClient.fetch`.

- 2xx response: returned immediately (`handleResponse` returns it).
- 429 with budget left: `handleRateLimit` logs and sleeps the nominal
  delay, then `RetryableError` is thrown, `shouldRetryError` says retry,
  and `handleRetry` sleeps the same nominal delay again — hence the two
  equal entries — after which the delay doubles and the counter steps.
- 429 with budget exhausted: `handleRateLimit` throws the rate-limit
  error, which `shouldRetryError` refuses to retry (`retry >= maxRetry`).
- other non-2xx status: `handleResponse` throws `HttpError`, which
  `shouldRetryError` never retries.
- transport fault with budget left: `handleRetry` sleeps once, the delay
  doubles, the counter steps; with budget exhausted the fault is rethrown.

The loop condition `retry <= maxRetry` cannot fail (the counter only steps
when strictly below the budget), so the `createMaxRetriesError` line after
the loop is unreachable and has no model. -/
def fetchLoop (maxRetry : Nat) : Nat → Nat → List NetOutcome → FetchResult
  | _retry, _sleepTime, [] =>
    { result := .error .noMoreOutcomes, calls := 0, sleeps := [] }
  | retry, sleepTime, outcome :: rest =>
    match outcome with
    | .resp status =>
      if status == 429 then
        if maxRetry ≤ retry then
          { result := .error (.rateLimitExceeded maxRetry), calls := 1, sleeps := [] }
        else
          let r := fetchLoop maxRetry (retry + 1) (sleepTime * 2) rest
          { result := r.result, calls := r.calls + 1,
            sleeps := sleepTime :: sleepTime :: r.sleeps }
      else if is2xx status then
        { result := .ok status, calls := 1, sleeps := [] }
      else
        { result := .error (.httpError status), calls := 1, sleeps := [] }
    | .fault =>
      if maxRetry ≤ retry then
        { result := .error .networkFault, calls := 1, sleeps := [] }
      else
        let r := fetchLoop maxRetry (retry + 1) (sleepTime * 2) rest
        { result := r.result, calls := r.calls + 1, sleeps := sleepTime :: r.sleeps }

/-- Source `RetryableHttpClient.fetch`: fresh counter and fresh backoff delay for
every call. -/
def clientFetch (maxRetry initialSleepTime : Nat) (outcomes : List NetOutcome) :
    FetchResult :=
  fetchLoop maxRetry 0 initialSleepTime outcomes

/-- A retry trigger: a 429 response or a transport fault — the two outcome
kinds that consume retry budget. -/
def isTrigger : NetOutcome → Bool
  | .resp status => status == 429
  | .fault => true

/-- Nominal sleeps produced by a run of triggers when the delay starts at
`sleepTime`: a 429 retry sleeps twice with the current delay, a fault retry
once, and either way the one shared delay then doubles. -/
def mixedBackoffs (sleepTime : Nat) : List NetOutcome → List Nat
  | [] => []
  | .resp _ :: rest => sleepTime :: sleepTime :: mixedBackoffs (sleepTime * 2) rest
  | .fault :: rest => sleepTime :: mixedBackoffs (sleepTime * 2) rest

/-! ## Retrieval orchestrator (the PubMedAPIWrapper class)

The orchestrator is modeled against a response oracle: the JSON body the
search call produces (or the stringified error it throws), and per-uid the
parsed XML document a fetch call produces (or the stringified error it
throws).  URL building (src/url-builder.ts) and the XML parser library are
the external collaborators the spec excludes, so a network call is recorded
as an event carrying exactly the data the source passes into them.  Each
operation returns its value together with the ordered event trace; the
`yielded` events mark the generator suspension points of `lazyLoad`, so
strict sequencing (fetch N+1 only after yield N) is visible in the trace
shape. -/

/-- The `esearchresult` member of the search JSON (`webenv` and `idlist`
may be absent in a malformed response). -/
structure ESearchResultData where
  webenv : Option String := none
  idlist : Option (List String) := none
deriving DecidableEq, Repr

/-- Source `PubMedSearchResult`: the search JSON envelope. -/
structure PubMedSearchResult where
  esearchresult : Option ESearchResultData := none
deriving DecidableEq, Repr

/-- The wrapper configuration actually used by the retrieval operations. -/
structure WrapperConfig where
  topKResults : Nat := 5
  maxQueryLength : Nat := 300
  docContentCharsMax : Nat := 10000
deriving DecidableEq, Repr

/-- Observable network/consumer events of one retrieval operation. -/
inductive Event where
  | searchCall (query : String) (retmax : Nat)
  | fetchCall (uid : String) (webenv : String)
  | yielded (article : PubMedArticleMetadata)
deriving DecidableEq, Repr

/-- Errors the orchestrator pipeline can surface: the
`"Invalid response from PubMed API"` error thrown by `lazyLoad`, or an
error thrown below it (transport, body decoding), carried as its
stringified form. -/
inductive PubMedError where
  | invalidResponse
  | thrown (message : String)
deriving DecidableEq, Repr

/-- JS string interpolation of a caught error (an `Error` stringifies as
`Error: <message>`). -/
def errorToString : PubMedError → String
  | .invalidResponse => "Error: Invalid response from PubMed API"
  | .thrown message => message

/-- The response oracle one retrieval operation runs against. -/
structure Env where
  searchResponse : Except String PubMedSearchResult
  docs : String → Except String PubMedXMLResponse

/-- The `for (const uid of idList) yield await this.retrieveArticle(uid, webenv)`
loop of `lazyLoad` together with `retrieveArticle`: fetch the document of
one identifier, extract its metadata, yield it, then move to the next
identifier.  A throw mid-iteration abandons the records already yielded
(the eager collector rethrows), which `Except.map` reflects. -/
def fetchArticles (env : Env) (webenv : String) :
    List String → Except PubMedError (List PubMedArticleMetadata) × List Event
  | [] => (.ok [], [])
  | uid :: rest =>
    match env.docs uid with
    | .error message => (.error (.thrown message), [.fetchCall uid webenv])
    | .ok xmlResponse =>
      let article := extractArticleMetadata uid xmlResponse
      let next := fetchArticles env webenv rest
      (next.1.map (fun articles => article :: articles),
       .fetchCall uid webenv :: .yielded article :: next.2)

/-- Source `PubMedAPIWrapper.lazyLoad`: one search call carrying the query of the caller
(no truncation here), the guard
`if (!data.esearchresult || !data.esearchresult.webenv) throw ...`
(a falsy test, so an empty-string webenv also fails), then
`idlist || []` and the sequential per-identifier fetch loop. -/
def lazyLoad (cfg : WrapperConfig) (env : Env) (query : String) :
    Except PubMedError (List PubMedArticleMetadata) × List Event :=
  let trace0 : List Event := [.searchCall query cfg.topKResults]
  match env.searchResponse with
  | .error message => (.error (.thrown message), trace0)
  | .ok data =>
    match data.esearchresult with
    | none => (.error .invalidResponse, trace0)
    | some es =>
      match es.webenv with
      | none => (.error .invalidResponse, trace0)
      | some webenv =>
        if webenv = "" then (.error .invalidResponse, trace0)
        else
          let fetched := fetchArticles env webenv (es.idlist.getD [])
          (fetched.1, trace0 ++ fetched.2)

/-- Source `PubMedAPIWrapper.load`: the eager collection of `lazyLoad` — same
calls in the same order, same failure, the results in a list. -/
def load (cfg : WrapperConfig) (env : Env) (query : String) :
    Except PubMedError (List PubMedArticleMetadata) × List Event :=
  lazyLoad cfg env query

/-- Source `PubMedAPIWrapper.formatArticle`: the fixed four-line block. -/
def formatArticle (article : PubMedArticleMetadata) : String :=
  "Published: " ++ article.Published ++ "\n" ++
  "Title: " ++ article.Title ++ "\n" ++
  "Copyright Information: " ++ article.CopyrightInformation ++ "\n" ++
  "Summary:\n" ++ article.Summary

/-- Source `PubMedAPIWrapper.run`: truncate the query to `maxQueryLength`, load,
return the no-result sentinel on an empty list, otherwise join the
formatted blocks with a blank line and truncate to `docContentCharsMax`;
any error is caught and turned into the `PubMed exception:` string. -/
def run (cfg : WrapperConfig) (env : Env) (query : String) : String × List Event :=
  match load cfg env (jsSubstring query cfg.maxQueryLength) with
  | (.error e, tr) => ("PubMed exception: " ++ errorToString e, tr)
  | (.ok results, tr) =>
    if results.length = 0 then ("No good PubMed Result was found", tr)
    else
      (jsSubstring (String.intercalate "\n\n" (results.map formatArticle))
        cfg.docContentCharsMax, tr)

/-! ## Spec-side descriptions used by the claims -/

/-- Spec-side: zero-pad a date component to two digits. -/
def zeroPad2 (s : String) : String :=
  if s.length = 0 then "00" else if s.length = 1 then "0" ++ s else s

/-- Spec-side: a labeled section qualifies when it has both a label and a
text field. -/
def qualifies (entry : AbstractSection) : Bool :=
  entry.label.isSome && entry.text.isSome

/-- Spec-side: the `LABEL: text` rendering of a qualifying section. -/
def renderSection (entry : AbstractSection) : String :=
  entry.label.getD "" ++ ": " ++ entry.text.getD ""

/-- Spec-side: the queries carried by the search calls of a trace. -/
def searchQueries (events : List Event) : List String :=
  events.filterMap fun e =>
    match e with
    | .searchCall q _ => some q
    | _ => none

/-! ## Concrete instances used by counterexamples and witnesses -/

/-- A fetch document holding one standard article with the given data. -/
def mkArticleResponse (articleData : PubMedArticleData) : PubMedXMLResponse :=
  { PubmedArticleSet := some
      { PubmedArticle := some { MedlineCitation := some { Article := articleData } }
        PubmedBookArticle := none } }

/-- A configuration with a tiny query cap. -/
def cfgSmall : WrapperConfig :=
  { topKResults := 5, maxQueryLength := 2, docContentCharsMax := 10000 }

/-- An oracle answering the search with a well-formed response carrying no
identifiers; no document is ever fetched against it. -/
def envNoResults : Env :=
  { searchResponse := .ok { esearchresult := some { webenv := some "MCID_1", idlist := some [] } }
    docs := fun _ => .error "unused" }

/-- An oracle whose search response lacks the `esearchresult` member (and
with it the continuation token). -/
def envNoWebenv : Env :=
  { searchResponse := .ok {}
    docs := fun _ => .error "unused" }

/-- An oracle whose well-formed search response has no `idlist` field at
all. -/
def envNoIdlist : Env :=
  { searchResponse := .ok { esearchresult := some { webenv := some "MCID_3", idlist := none } }
    docs := fun _ => .error "unused" }

/-- A fetch document whose title, date and abstract name the identifier, so
attribution is visible. -/
def docTitled (uid : String) : PubMedXMLResponse :=
  mkArticleResponse
    { ArticleTitle := some ("Title " ++ uid)
      ArticleDate := some { Year := some "2024", Month := some "3", Day := some "7" }
      Abstract := some { AbstractText := some (.str ("Abstract " ++ uid)) } }

/-- An oracle answering the search with two identifiers and every document
fetch with the matching titled document. -/
def envTwoDocs : Env :=
  { searchResponse := .ok
      { esearchresult := some { webenv := some "MCID_2", idlist := some ["11", "22"] } }
    docs := fun uid => .ok (docTitled uid) }

/-! ## Helper lemmas -/

theorem jsSubstring_length_le (s : String) (n : Nat) : (jsSubstring s n).length ≤ n := by
  have h : (jsSubstring s n).length = (s.data.take n).length := rfl
  rw [h, List.length_take]
  omega

theorem padStart2_eq_zeroPad2 (s : String) : padStart2 s = zeroPad2 s := by
  rcases s with ⟨cs⟩
  rcases cs with _ | ⟨a, _ | ⟨b, rest⟩⟩
  · rfl
  · rfl
  · have hlen : (String.mk (a :: b :: rest)).length = rest.length + 2 := by
      show (a :: b :: rest).length = rest.length + 2
      simp [List.length_cons]
    unfold padStart2 zeroPad2
    rw [hlen]
    rw [if_pos (by omega), if_neg (by omega), if_neg (by omega)]

theorem zeroPad2_length (s : String) (h : s ≠ "") : 2 ≤ (zeroPad2 s).length := by
  rcases s with ⟨cs⟩
  rcases cs with _ | ⟨a, _ | ⟨b, rest⟩⟩
  · exact absurd rfl h
  · exact Nat.le_refl 2
  · have hlen : (String.mk (a :: b :: rest)).length = rest.length + 2 := by
      show (a :: b :: rest).length = rest.length + 2
      simp [List.length_cons]
    unfold zeroPad2
    rw [hlen]
    rw [if_neg (by omega), if_neg (by omega), hlen]
    omega

theorem collectSummaries_eq (xs : List AbstractSection) :
    collectSummaries xs = (xs.filter qualifies).map renderSection := by
  induction xs with
  | nil => rfl
  | cons t rest ih =>
    rcases t with ⟨lab, txt⟩
    rcases lab with _ | l <;> rcases txt with _ | s <;>
      simp [collectSummaries, qualifies, renderSection, ih, List.filter]

/-! ## Claim C1 -/

/-- Claim C1 counterexample: an article whose abstract field is present as the
plain empty string does not get the empty string back as its summary — the
falsy guard of `extractAbstract` conflates it with the missing case and
returns the sentinel. -/
theorem c1_counterexample :
    (extractArticleMetadata "1" (mkArticleResponse
        { Abstract := some { AbstractText := some (.str "") } })).Summary =
      "No abstract available" ∧
    ("No abstract available" : String) ≠ "" := by
  exact ⟨rfl, by decide⟩

/-- Claim C1 (amended): for an article whose abstract field is a plain nonempty
string, `extractArticleMetadata` returns that string verbatim as the
summary; a missing abstract yields the sentinel, and an explicitly empty
string abstract is conflated with the missing case and yields the sentinel
too (the `if` below). -/
theorem c1_abstract_string (uid s : String) (x y : PubMedXMLResponse)
    (hx : (extractArticleData x).Abstract.bind (fun a => a.AbstractText) =
      some (AbstractTextValue.str s))
    (hy : (extractArticleData y).Abstract.bind (fun a => a.AbstractText) = none) :
    (extractArticleMetadata uid x).Summary =
      (if s = "" then "No abstract available" else s) ∧
    (extractArticleMetadata uid y).Summary = "No abstract available" := by
  constructor
  · simp [extractArticleMetadata, extractAbstract, hx]
  · simp [extractArticleMetadata, extractAbstract, hy]

/-- Claim C1 witness: a concrete nonempty abstract comes back verbatim and a
concrete article without an abstract yields the sentinel. -/
theorem c1_witness :
    (extractArticleMetadata "1" (mkArticleResponse
        { Abstract := some { AbstractText := some (.str "An abstract.") } })).Summary =
      "An abstract." ∧
    (extractArticleMetadata "1" (mkArticleResponse {})).Summary =
      "No abstract available" := by
  have h := c1_abstract_string "1" "An abstract."
    (mkArticleResponse { Abstract := some { AbstractText := some (.str "An abstract.") } })
    (mkArticleResponse {}) rfl rfl
  refine ⟨?_, h.2⟩
  rw [h.1, if_neg (by decide)]

/-! ## Claim C7 -/

/-- Claim C7: the formatted publication date is monotonically more specific with
more present components — none gives the empty string, only a year gives
the year, year and month give `year-month`, all three give
`year-month-day`, the month and day zero-padded to two digits and the
components joined with a dash. -/
theorem c7_publication_date (y m d : String) (hy : y ≠ "") (hm : m ≠ "") (hd : d ≠ "") :
    extractPublicationDate {} = "" ∧
    extractPublicationDate { ArticleDate := some {} } = "" ∧
    extractPublicationDate { ArticleDate := some { Year := some y } } = y ∧
    extractPublicationDate { ArticleDate := some { Year := some y, Month := some m } } =
      y ++ "-" ++ zeroPad2 m ∧
    extractPublicationDate
        { ArticleDate := some { Year := some y, Month := some m, Day := some d } } =
      y ++ "-" ++ zeroPad2 m ++ "-" ++ zeroPad2 d ∧
    2 ≤ (zeroPad2 m).length ∧ 2 ≤ (zeroPad2 d).length := by
  refine ⟨rfl, rfl, ?_, ?_, ?_, zeroPad2_length m hm, zeroPad2_length d hd⟩
  · simp [extractPublicationDate, truthyString, hy,
      String.intercalate, String.intercalate.go]
  · simp [extractPublicationDate, truthyString, hy, hm, padStart2_eq_zeroPad2,
      String.intercalate, String.intercalate.go]
  · simp [extractPublicationDate, truthyString, hy, hm, hd, padStart2_eq_zeroPad2,
      String.intercalate, String.intercalate.go]

/-- Claim C7 witness: a concrete date record with a one-digit month and day. -/
theorem c7_witness :
    extractPublicationDate
        { ArticleDate := some { Year := some "2024", Month := some "3", Day := some "7" } } =
      "2024-03-07" := by
  have h := c7_publication_date "2024" "3" "7" (by decide) (by decide) (by decide)
  rw [h.2.2.2.2.1]
  rfl

/-! ## Claim C8 -/

/-- Claim C8: when at least one labeled section carries both a label and a text
field, the abstract is the newline-joined `LABEL: text` rendering of the
qualifying sections in original order, sections missing either field being
dropped; when no section qualifies (in particular for the empty sequence)
the result is the sentinel. -/
theorem formatAbstractArray_eq (xs : List AbstractSection) :
    formatAbstractArray xs =
      if ((xs.filter qualifies).map renderSection).length > 0
      then String.intercalate "\n" ((xs.filter qualifies).map renderSection)
      else "No abstract available" := by
  simp only [formatAbstractArray, collectSummaries_eq]

theorem c8_labeled_sections (xs : List AbstractSection) :
    ((∃ t ∈ xs, qualifies t = true) →
      formatAbstractArray xs =
        String.intercalate "\n" ((xs.filter qualifies).map renderSection)) ∧
    ((∀ t ∈ xs, qualifies t = false) →
      formatAbstractArray xs = "No abstract available") := by
  constructor
  · intro hex
    rcases hex with ⟨t, ht, hq⟩
    have hmem : t ∈ xs.filter qualifies := List.mem_filter.mpr ⟨ht, hq⟩
    have hpos : ((xs.filter qualifies).map renderSection).length > 0 := by
      rw [List.length_map]
      exact List.length_pos.mpr (List.ne_nil_of_mem hmem)
    rw [formatAbstractArray_eq, if_pos hpos]
  · intro hall
    have hnil : xs.filter qualifies = [] := by
      rw [List.filter_eq_nil_iff]
      intro t ht
      simp [hall t ht]
    rw [formatAbstractArray_eq, hnil]
    rfl

/-- Claim C8 witness: two qualifying sections and one section missing its label,
rendered in order with the incomplete section dropped. -/
theorem c8_witness :
    formatAbstractArray
        [{ label := some "BACKGROUND", text := some "Context." },
         { label := none, text := some "orphan text" },
         { label := some "METHODS", text := some "We did X." }] =
      "BACKGROUND: Context.\nMETHODS: We did X." := by
  have h := (c8_labeled_sections
    [{ label := some "BACKGROUND", text := some "Context." },
     { label := none, text := some "orphan text" },
     { label := some "METHODS", text := some "We did X." }]).1
    ⟨{ label := some "BACKGROUND", text := some "Context." }, by simp, by rfl⟩
  rw [h]
  rfl

/-! ## Claims C4 and C5 (transport) -/

theorem fetchLoop_triggers (s : Nat) (hs : is2xx s = true) :
    ∀ (ts : List NetOutcome) (maxRetry retry sleepTime : Nat),
      (∀ t ∈ ts, isTrigger t = true) → retry + ts.length ≤ maxRetry →
      fetchLoop maxRetry retry sleepTime (ts ++ [NetOutcome.resp s]) =
        { result := .ok s, calls := ts.length + 1,
          sleeps := mixedBackoffs sleepTime ts } := by
  have h429 : (s == 429) = false := by
    unfold is2xx at hs
    simp only [Bool.and_eq_true, decide_eq_true_eq] at hs
    simp only [beq_eq_false_iff_ne, ne_eq]
    omega
  intro ts
  induction ts with
  | nil =>
    intro maxRetry retry sleepTime _ _
    simp [fetchLoop, h429, hs, mixedBackoffs]
  | cons t rest ih =>
    intro maxRetry retry sleepTime hall hlen
    have hretry : ¬ maxRetry ≤ retry := by
      simp only [List.length_cons] at hlen
      omega
    have hrec := ih maxRetry (retry + 1) (sleepTime * 2)
      (fun t2 ht2 => hall t2 (by simp [ht2]))
      (by simp only [List.length_cons] at hlen; omega)
    rcases t with st | _
    · have hst : (st == 429) = true := by
        have := hall (NetOutcome.resp st) (by simp)
        simpa [isTrigger] using this
      simp [fetchLoop, hst, hretry, hrec, mixedBackoffs]
    · simp [fetchLoop, hretry, hrec, mixedBackoffs]

theorem mixedBackoffs_replicate_get :
    ∀ (n sleepTime k : Nat), k < n →
      (mixedBackoffs sleepTime (List.replicate n (NetOutcome.resp 429)))[2 * k]? =
        some (sleepTime * 2 ^ k) ∧
      (mixedBackoffs sleepTime (List.replicate n (NetOutcome.resp 429)))[2 * k + 1]? =
        some (sleepTime * 2 ^ k) := by
  intro n
  induction n with
  | zero => intro sleepTime k hk; omega
  | succ n ih =>
    intro sleepTime k hk
    rw [List.replicate_succ]
    rcases k with _ | k
    · constructor
      · simp [mixedBackoffs]
      · simp [mixedBackoffs]
    · have h1 := (ih (sleepTime * 2) k (by omega)).1
      have h2 := (ih (sleepTime * 2) k (by omega)).2
      have e1 : 2 * (k + 1) = 2 * k + 1 + 1 := by ring
      have e2 : 2 * (k + 1) + 1 = 2 * k + 1 + 1 + 1 := by ring
      have epow : sleepTime * 2 * 2 ^ k = sleepTime * 2 ^ (k + 1) := by ring
      constructor
      · rw [e1]
        simp only [mixedBackoffs, List.getElem?_cons_succ]
        rw [h1, epow]
      · rw [e2]
        simp only [mixedBackoffs, List.getElem?_cons_succ]
        rw [h2, epow]

/-- Claim C4: against a script of N consecutive 429 responses followed by a 2xx
response, with retry budget at least N, `fetch` returns the 2xx response
after exactly N retries (N+1 network calls), and the nominal backoff of the
k-th retry (0-indexed here) is `initialSleepTime * 2^k` — the transport
suspends twice per 429 retry (`handleRateLimit` then `handleRetry`), both
suspensions carrying that same nominal value, which the paired indices 2k
and 2k+1 record.  The final conjunct shows the one shared counter and the
one shared doubling delay: any mix of 429 and transient-fault triggers of
the same length succeeds the same way. -/
theorem c4_backoff (N maxRetry initialSleepTime s : Nat)
    (hs : is2xx s = true) (hN : N ≤ maxRetry) :
    (clientFetch maxRetry initialSleepTime
        (List.replicate N (NetOutcome.resp 429) ++ [NetOutcome.resp s])).result =
      .ok s ∧
    (clientFetch maxRetry initialSleepTime
        (List.replicate N (NetOutcome.resp 429) ++ [NetOutcome.resp s])).calls = N + 1 ∧
    (∀ k, k < N →
      (clientFetch maxRetry initialSleepTime
          (List.replicate N (NetOutcome.resp 429) ++ [NetOutcome.resp s])).sleeps[2 * k]? =
        some (initialSleepTime * 2 ^ k) ∧
      (clientFetch maxRetry initialSleepTime
          (List.replicate N (NetOutcome.resp 429) ++ [NetOutcome.resp s])).sleeps[2 * k + 1]? =
        some (initialSleepTime * 2 ^ k)) ∧
    (∀ ts : List NetOutcome, (∀ t ∈ ts, isTrigger t = true) → ts.length = N →
      (clientFetch maxRetry initialSleepTime (ts ++ [NetOutcome.resp s])).result = .ok s ∧
      (clientFetch maxRetry initialSleepTime (ts ++ [NetOutcome.resp s])).calls = N + 1) := by
  have hrep : ∀ t ∈ List.replicate N (NetOutcome.resp 429), isTrigger t = true := by
    intro t ht
    rw [List.eq_of_mem_replicate ht]
    rfl
  have hmain := fetchLoop_triggers s hs (List.replicate N (NetOutcome.resp 429))
    maxRetry 0 initialSleepTime hrep (by simp only [List.length_replicate]; omega)
  refine ⟨?_, ?_, ?_, ?_⟩
  · simp only [clientFetch]
    rw [hmain]
  · simp only [clientFetch]
    rw [hmain]
    simp [List.length_replicate]
  · intro k hk
    simp only [clientFetch]
    rw [hmain]
    exact mixedBackoffs_replicate_get N initialSleepTime k hk
  · intro ts hts hlen
    have h := fetchLoop_triggers s hs ts maxRetry 0 initialSleepTime hts (by omega)
    simp only [clientFetch]
    rw [h, hlen]
    exact ⟨rfl, rfl⟩

/-- Claim C4 witness: two 429 responses then a 200 with budget 5 and initial
delay 200 succeed after two retries, the second retry backing off with
nominal value 400. -/
theorem c4_witness :
    (clientFetch 5 200 (List.replicate 2 (NetOutcome.resp 429) ++
        [NetOutcome.resp 200])).result = Except.ok 200 ∧
    (clientFetch 5 200 (List.replicate 2 (NetOutcome.resp 429) ++
        [NetOutcome.resp 200])).calls = 3 ∧
    (clientFetch 5 200 (List.replicate 2 (NetOutcome.resp 429) ++
        [NetOutcome.resp 200])).sleeps[2]? = some 400 := by
  have h := c4_backoff 2 5 200 200 (by decide) (by decide)
  refine ⟨h.1, h.2.1, ?_⟩
  have h2 := (h.2.2.1 1 (by decide)).1
  simpa using h2

/-- Claim C5: a non-2xx, non-429 response makes `fetch` fail at once with the
`HttpError` outcome carrying the status, after exactly one network call and
with no backoff sleep, whatever retry budget remains and whatever the
script would have answered next. -/
theorem c5_http_error (maxRetry initialSleepTime status : Nat) (rest : List NetOutcome)
    (h2xx : is2xx status = false) (h429 : status ≠ 429) :
    clientFetch maxRetry initialSleepTime (NetOutcome.resp status :: rest) =
      { result := .error (.httpError status), calls := 1, sleeps := [] } := by
  have hb : (status == 429) = false := by
    simp only [beq_eq_false_iff_ne, ne_eq]
    exact h429
  simp [clientFetch, fetchLoop, hb, h2xx]

/-- Claim C5 witness: a single 404 fails immediately with one call even with a
retry budget of 5. -/
theorem c5_witness :
    clientFetch 5 200 [NetOutcome.resp 404] =
      { result := .error (.httpError 404), calls := 1, sleeps := [] } :=
  c5_http_error 5 200 404 [] (by decide) (by decide)

/-! ## Orchestrator lemmas -/

theorem searchQueries_append (l1 l2 : List Event) :
    searchQueries (l1 ++ l2) = searchQueries l1 ++ searchQueries l2 := by
  simp [searchQueries, List.filterMap_append]

theorem fetchArticles_no_search (env : Env) (webenv : String) :
    ∀ ids : List String, searchQueries (fetchArticles env webenv ids).2 = [] := by
  intro ids
  induction ids with
  | nil => rfl
  | cons uid rest ih =>
    cases h : env.docs uid with
    | error msg => simp [fetchArticles, h, searchQueries]
    | ok x =>
      simp only [fetchArticles, h, searchQueries, List.filterMap_cons] at ih ⊢
      exact ih

theorem fetchArticles_all_ok (env : Env) (webenv : String)
    (docsF : String → PubMedXMLResponse)
    (hdocs : ∀ uid, env.docs uid = .ok (docsF uid)) :
    ∀ ids : List String,
      fetchArticles env webenv ids =
        (.ok (ids.map fun uid => extractArticleMetadata uid (docsF uid)),
         (ids.map fun uid =>
            [Event.fetchCall uid webenv,
             Event.yielded (extractArticleMetadata uid (docsF uid))]).flatten) := by
  intro ids
  induction ids with
  | nil => rfl
  | cons uid rest ih =>
    simp only [fetchArticles, hdocs uid, ih, List.map_cons, List.flatten_cons]
    rfl

theorem searchQueries_lazyLoad (cfg : WrapperConfig) (env : Env) (query : String) :
    searchQueries (lazyLoad cfg env query).2 = [query] := by
  unfold lazyLoad
  cases hs : env.searchResponse with
  | error msg => rfl
  | ok data =>
    rcases data with ⟨esr⟩
    rcases esr with _ | ⟨we, il⟩
    · rfl
    · rcases we with _ | w
      · rfl
      · by_cases hempty : w = ""
        · simp only [if_pos hempty]
          rfl
        · have hfin : searchQueries ([Event.searchCall query cfg.topKResults] ++
              (fetchArticles env w (il.getD [])).2) = [query] := by
            rw [searchQueries_append, fetchArticles_no_search]
            rfl
          simp only [if_neg hempty]
          exact hfin

theorem run_trace (cfg : WrapperConfig) (env : Env) (query : String) :
    (run cfg env query).2 = (lazyLoad cfg env (jsSubstring query cfg.maxQueryLength)).2 := by
  unfold run load
  rcases h : lazyLoad cfg env (jsSubstring query cfg.maxQueryLength) with ⟨r, tr⟩
  rcases r with e | results
  · rfl
  · simp only []
    split <;> rfl

theorem run_error (cfg : WrapperConfig) (env : Env) (query : String) (e : PubMedError)
    (h : (load cfg env (jsSubstring query cfg.maxQueryLength)).1 = .error e) :
    (run cfg env query).1 = "PubMed exception: " ++ errorToString e := by
  unfold run
  rcases hl : load cfg env (jsSubstring query cfg.maxQueryLength) with ⟨r, tr⟩
  rw [hl] at h
  have hr : r = .error e := h
  rw [hr]

theorem run_no_results (cfg : WrapperConfig) (env : Env) (query : String)
    (h : (load cfg env (jsSubstring query cfg.maxQueryLength)).1 = .ok []) :
    (run cfg env query).1 = "No good PubMed Result was found" := by
  unfold run
  rcases hl : load cfg env (jsSubstring query cfg.maxQueryLength) with ⟨r, tr⟩
  rw [hl] at h
  have hr : r = .ok [] := h
  rw [hr]
  rfl

theorem lazyLoad_ok (cfg : WrapperConfig) (env : Env) (query w : String)
    (ids : List String) (hw : w ≠ "")
    (hsr : env.searchResponse =
      .ok { esearchresult := some { webenv := some w, idlist := some ids } }) :
    lazyLoad cfg env query =
      ((fetchArticles env w ids).1,
       Event.searchCall query cfg.topKResults :: (fetchArticles env w ids).2) := by
  simp [lazyLoad, hsr, hw]

/-! ## Claim C2 -/

/-- Claim C2 counterexample: with the query cap set to 2, `lazyLoad` issues its
search call carrying the full four-character query — the claim that every
retrieval operation (`run`, `load`, `lazyLoad`) truncates before the
network call fails on `lazyLoad`. -/
theorem c2_counterexample :
    Event.searchCall "abcd" cfgSmall.topKResults ∈ (lazyLoad cfgSmall envNoResults "abcd").2 ∧
    cfgSmall.maxQueryLength < ("abcd" : String).length := by
  constructor
  · decide
  · decide

/-- Claim C2 (amended): only `run` truncates the query — its single search call
carries `query.substring(0, maxQueryLength)`, whose length is bounded by
the cap — while `lazyLoad` and `load` pass the original query through to
their search call unmodified. -/
theorem c2_truncation (cfg : WrapperConfig) (env : Env) (query : String) :
    searchQueries (run cfg env query).2 = [jsSubstring query cfg.maxQueryLength] ∧
    (jsSubstring query cfg.maxQueryLength).length ≤ cfg.maxQueryLength ∧
    searchQueries (lazyLoad cfg env query).2 = [query] ∧
    searchQueries (load cfg env query).2 = [query] := by
  refine ⟨?_, jsSubstring_length_le query cfg.maxQueryLength,
    searchQueries_lazyLoad cfg env query, searchQueries_lazyLoad cfg env query⟩
  rw [run_trace]
  exact searchQueries_lazyLoad cfg env (jsSubstring query cfg.maxQueryLength)

/-! ## Claim C3 -/

/-- Claim C3: when the search response lacks the continuation token (no
`esearchresult` member, or no `webenv` in it), `lazyLoad` and `load` fail
with the invalid-response error after the search call alone — no document
fetch happens — while `run` on the same oracle returns the
`PubMed exception: Error: Invalid response from PubMed API` string.  The
last conjunct is the catch-all: whatever error the pipeline surfaces for
whatever oracle, `run` converts it into a `PubMed exception:` string
instead of propagating it. -/
theorem c3_invalid_response (cfg : WrapperConfig) (env : Env) (query : String)
    (data : PubMedSearchResult) (hsr : env.searchResponse = .ok data)
    (hmiss : data.esearchresult = none ∨
      ∃ es, data.esearchresult = some es ∧ es.webenv = none) :
    (lazyLoad cfg env query).1 = .error .invalidResponse ∧
    (load cfg env query).1 = .error .invalidResponse ∧
    (∀ uid w, Event.fetchCall uid w ∉ (lazyLoad cfg env query).2) ∧
    (run cfg env query).1 = "PubMed exception: Error: Invalid response from PubMed API" ∧
    (∀ (env2 : Env) (q : String) (e : PubMedError),
      (load cfg env2 (jsSubstring q cfg.maxQueryLength)).1 = .error e →
      (run cfg env2 q).1 = "PubMed exception: " ++ errorToString e) := by
  have hlz : ∀ q2 : String, lazyLoad cfg env q2 =
      (.error .invalidResponse, [Event.searchCall q2 cfg.topKResults]) := by
    intro q2
    rcases hmiss with h | ⟨es, hes, hwe⟩
    · simp [lazyLoad, hsr, h]
    · simp [lazyLoad, hsr, hes, hwe]
  refine ⟨?_, ?_, ?_, ?_, ?_⟩
  · rw [hlz query]
  · show (lazyLoad cfg env query).1 = .error .invalidResponse
    rw [hlz query]
  · intro uid w
    rw [hlz query]
    simp
  · have he := run_error cfg env query PubMedError.invalidResponse (by
      show (lazyLoad cfg env (jsSubstring query cfg.maxQueryLength)).1 = _
      rw [hlz (jsSubstring query cfg.maxQueryLength)])
    rw [he]
    rfl
  · intro env2 q e h
    exact run_error cfg env2 q e h

/-- Claim C3 witness: a concrete search response with no `esearchresult` member
makes `lazyLoad` fail with the invalid-response error and makes `run`
return the exception string. -/
theorem c3_witness :
    (lazyLoad {} envNoWebenv "covid").1 = .error .invalidResponse ∧
    (run {} envNoWebenv "covid").1 =
      "PubMed exception: Error: Invalid response from PubMed API" := by
  have h := c3_invalid_response {} envNoWebenv "covid" {} rfl (Or.inl rfl)
  exact ⟨h.1, h.2.2.2.1⟩

/-! ## Claim C6 -/

/-- Claim C6: a well-formed search response with an empty identifier list makes
`run` return exactly the no-result sentinel, with no document fetch call in
its trace, and `lazyLoad` yield no record. -/
theorem c6_empty_idlist (cfg : WrapperConfig) (env : Env) (query w : String)
    (hw : w ≠ "")
    (hsr : env.searchResponse =
      .ok { esearchresult := some { webenv := some w, idlist := some [] } }) :
    (run cfg env query).1 = "No good PubMed Result was found" ∧
    (∀ uid w2, Event.fetchCall uid w2 ∉ (run cfg env query).2) ∧
    (lazyLoad cfg env query).1 = .ok [] := by
  have htr : ∀ q2 : String, lazyLoad cfg env q2 =
      (.ok [], [Event.searchCall q2 cfg.topKResults]) := by
    intro q2
    rw [lazyLoad_ok cfg env q2 w [] hw hsr]
    rfl
  refine ⟨?_, ?_, by rw [htr query]⟩
  · exact run_no_results cfg env query (by
      show (lazyLoad cfg env (jsSubstring query cfg.maxQueryLength)).1 = _
      rw [htr (jsSubstring query cfg.maxQueryLength)])
  · intro uid w2
    rw [run_trace, htr (jsSubstring query cfg.maxQueryLength)]
    simp

/-- Claim C6 witness: the concrete empty-identifier-list oracle. -/
theorem c6_witness :
    (run {} envNoResults "covid").1 = "No good PubMed Result was found" ∧
    Event.fetchCall "11" "MCID_1" ∉ (run {} envNoResults "covid").2 := by
  have h := c6_empty_idlist {} envNoResults "covid" "MCID_1" (by decide) rfl
  exact ⟨h.1, h.2.1 "11" "MCID_1"⟩

/-! ## Claim C9 -/

/-- Claim C9: against a search response listing `ids` and an oracle answering
every document fetch, `lazyLoad` yields exactly one metadata record per
identifier, in identifier-list order, each record extracted from the
document belonging to that identifier; and the trace interleaves strictly — after the
single search call, the fetch call of each identifier is immediately followed by
its yield before the fetch call of the next identifier appears, so fetch k+1
starts only after record k was yielded. -/
theorem c9_sequential (cfg : WrapperConfig) (env : Env) (query w : String)
    (ids : List String) (docsF : String → PubMedXMLResponse)
    (hw : w ≠ "")
    (hsr : env.searchResponse =
      .ok { esearchresult := some { webenv := some w, idlist := some ids } })
    (hdocs : ∀ uid, env.docs uid = .ok (docsF uid)) :
    (lazyLoad cfg env query).1 =
      .ok (ids.map fun uid => extractArticleMetadata uid (docsF uid)) ∧
    (lazyLoad cfg env query).2 =
      Event.searchCall query cfg.topKResults ::
        (ids.map fun uid =>
          [Event.fetchCall uid w,
           Event.yielded (extractArticleMetadata uid (docsF uid))]).flatten := by
  have hfa := fetchArticles_all_ok env w docsF hdocs ids
  have hl := lazyLoad_ok cfg env query w ids hw hsr
  constructor
  · rw [hl, hfa]
  · rw [hl, hfa]

/-- Claim C9 witness: two identifiers, two documents, two records in order, with
the fetch/yield events strictly interleaved. -/
theorem c9_witness :
    (lazyLoad {} envTwoDocs "heart disease").1 =
      .ok [extractArticleMetadata "11" (docTitled "11"),
           extractArticleMetadata "22" (docTitled "22")] ∧
    (lazyLoad {} envTwoDocs "heart disease").2 =
      [Event.searchCall "heart disease" 5,
       Event.fetchCall "11" "MCID_2",
       Event.yielded (extractArticleMetadata "11" (docTitled "11")),
       Event.fetchCall "22" "MCID_2",
       Event.yielded (extractArticleMetadata "22" (docTitled "22"))] := by
  have h := c9_sequential {} envTwoDocs "heart disease" "MCID_2" ["11", "22"] docTitled
    (by decide) rfl (fun uid => rfl)
  constructor
  · rw [h.1]
    rfl
  · rw [h.2]
    rfl

/-! ## Claim C10 -/

/-- Claim C10: a search response that carries the continuation token but has no
`idlist` field at all is treated as an empty identifier list — `lazyLoad`
yields no record and raises no error, its trace holds the search call
alone, and `run` returns the no-result sentinel rather than an exception
string. -/
theorem c10_missing_idlist (cfg : WrapperConfig) (env : Env) (query w : String)
    (hw : w ≠ "")
    (hsr : env.searchResponse =
      .ok { esearchresult := some { webenv := some w, idlist := none } }) :
    (lazyLoad cfg env query).1 = .ok [] ∧
    (lazyLoad cfg env query).2 = [Event.searchCall query cfg.topKResults] ∧
    (run cfg env query).1 = "No good PubMed Result was found" := by
  have htr : ∀ q2 : String, lazyLoad cfg env q2 =
      (.ok [], [Event.searchCall q2 cfg.topKResults]) := by
    intro q2
    simp [lazyLoad, hsr, hw, fetchArticles]
  refine ⟨by rw [htr query], by rw [htr query], ?_⟩
  exact run_no_results cfg env query (by
    show (lazyLoad cfg env (jsSubstring query cfg.maxQueryLength)).1 = _
    rw [htr (jsSubstring query cfg.maxQueryLength)])

/-- Claim C10 witness: the concrete missing-idlist oracle. -/
theorem c10_witness :
    (lazyLoad {} envNoIdlist "covid").1 = .ok [] ∧
    (run {} envNoIdlist "covid").1 = "No good PubMed Result was found" := by
  have h := c10_missing_idlist {} envNoIdlist "covid" "MCID_3" (by decide) rfl
  exact ⟨h.1, h.2.2⟩
